import Mathlib

/-!
Shallow embedding of `pnp.py` (plug-and-play diffusion image editing script).

Tensors are modelled pointwise as maps `ℕ → ℚ`.  The pretrained components the
script delegates to (UNet, VAE, text encoder, DDIM scheduler internals) and the
contents of the disk are abstracted as fields of a `Model` structure; the
script's own control flow, arithmetic and filesystem effects are translated
one-to-one from the source.  Functions of `pnp_utils.py` (which is imported by
`pnp.py` but absent from the sources) are modelled from the spec and marked so
in their doc comments.
-/

/-- A latent tensor, flattened to an index-to-value map. -/
abbrev Latent : Type := Nat → ℚ

/-- A decoded image tensor, flattened to an index-to-value map. -/
abbrev Img : Type := Nat → ℚ

/-- A text-embedding tensor. -/
abbrev Emb : Type := Nat → ℚ

/-- Pointwise addition of tensors (`torch` elementwise `+`). -/
def addL (a b : Latent) : Latent := fun i => a i + b i

/-- Pointwise subtraction of tensors (`torch` elementwise `-`). -/
def subL (a b : Latent) : Latent := fun i => a i - b i

/-- Scalar multiplication of a tensor (`torch` scalar `*`). -/
def scaleL (c : ℚ) (a : Latent) : Latent := fun i => c * a i

/-- The runtime configuration: the twelve parameters `pnp.py` reads from the
YAML file given by `--config_path`. -/
structure Config where
  device : String
  sd_version : String
  n_timesteps : Nat
  prompt : String
  negative_prompt : String
  guidance_scale : ℚ
  pnp_f_t : ℚ
  pnp_attn_t : ℚ
  image_path : String
  latents_path : String
  output_path : String
  seed : Nat
deriving Repr

/-- Python `int()` applied to a rational: truncation toward zero. -/
def pyTrunc (q : ℚ) : Int := Int.tdiv q.num q.den

/-- Index of the last occurrence of a character in a character list. -/
def lastIdxOf (c : Char) : List Char → Option Nat
  | [] => none
  | a :: rest =>
    match lastIdxOf c rest with
    | some i => some (i + 1)
    | none => if a = c then some 0 else none

/-- `os.path.basename` for POSIX paths: everything after the last slash. -/
def basename (p : String) : String :=
  match lastIdxOf '/' p.data with
  | some i => String.mk (p.data.drop (i + 1))
  | none => p

/-- The root part of `os.path.splitext` applied to a bare file name (no
slashes, as produced by `basename`): the name is split at its last dot, but
only if some non-dot character precedes that dot, so that dotfiles such as
`.bashrc` keep their name whole. -/
def splitextRoot (name : String) : String :=
  match lastIdxOf '.' name.data with
  | none => name
  | some i =>
    if (name.data.take i).any (fun ch => ch ≠ '.') then String.mk (name.data.take i)
    else name

/-- Whether a path's first character is a slash (`b.startswith(sep)`). -/
def headIsSlash (s : String) : Bool :=
  match s.data with
  | [] => false
  | c :: _ => c = '/'

/-- Whether a path's last character is a slash (`path.endswith(sep)`). -/
def lastIsSlash (s : String) : Bool :=
  match s.data.getLast? with
  | none => false
  | some c => c = '/'

/-- Two-argument `os.path.join` for POSIX paths. -/
def pathJoin (a b : String) : String :=
  if headIsSlash b then b
  else if a = "" ∨ lastIsSlash a then a ++ b
  else a ++ "/" ++ b

/-- PIL resampling filters. -/
inductive Resample where
  | lanczos
  | nearest
  | box
  | hamming
  | bicubic
deriving Repr, DecidableEq

/-- A PIL image: a mode, dimensions, and an abstract pixel content. -/
structure PILImage where
  mode : String
  width : Nat
  height : Nat
  content : Nat
deriving Repr, DecidableEq

/-- A torch tensor placed on a device (the result of `.to(device)`). -/
structure DevTensor where
  device : String
  val : Nat → ℚ

/-- Data written to a file by the script. -/
inductive FileData where
  | yaml (c : Config)
  | png (img : Img)

/-- Externally visible effects of the script, in program order. -/
inductive Event where
  | readFile (path : String)
  | mkdir (path : String)
  | writeFile (path : String) (data : FileData)
  | loadModel (key : String)
  | printStr (s : String)
  | printCfg (c : Config)
  | seedSet (n : Nat)

/-- Python exceptions the script can raise. -/
inductive PyError where
  | valueError (msg : String)
  | indexError
deriving Repr, DecidableEq

/-- The pretrained model, scheduler and disk contents the script depends on,
abstracted as pure functions.  `unet_batch` records that the UNet maps a batch
to a batch of the same size, which is what makes the three-way `chunk` in
`denoise_step` well defined. -/
structure Model where
  /-- `scheduler.timesteps` after `set_timesteps(n_timesteps)`. -/
  timesteps : List Int
  /-- How a scheduler timestep renders inside an f-string. -/
  showT : Int → String
  /-- The UNet: batched latents, timestep and per-item text embeddings to
  batched noise predictions. -/
  unet : List Latent → Int → List Emb → List Latent
  unet_batch : ∀ b t e, (unet b t e).length = b.length
  /-- The deterministic part of the DDIM scheduler step
  (model output, timestep, sample to previous sample). -/
  schedDet : Latent → Int → Latent → Latent
  /-- The variance coefficient of the DDIM step that `eta` scales. -/
  schedVarCoef : Int → ℚ
  /-- `vae.decode(...).sample`. -/
  vaeDecode : Latent → Img
  /-- `vae.config.scaling_factor`. -/
  scalingFactor : ℚ
  /-- The latent stored on disk in the `.pt` file at a path (`torch.load`). -/
  diskLatent : String → Latent
  /-- The image stored on disk at a path (`Image.open`). -/
  openImage : String → PILImage
  /-- `pipe.encode_prompt`: prompt and negative prompt to
  (prompt embedding, negative-prompt embedding). -/
  encodePrompt : String → String → Emb × Emb
  /-- Pixel semantics of `PIL.Image.convert(mode)`. -/
  convertContent : String → Nat → Nat
  /-- Pixel semantics of `PIL.Image.resize((w, h), resample)`. -/
  resampleContent : Resample → Nat → Nat → Nat → Nat
  /-- `torchvision.transforms.ToTensor` on a PIL image. -/
  pilToTensor : PILImage → (Nat → ℚ)

/-- `PIL.Image.convert`: changes the mode, keeps the dimensions. -/
def pilConvert (m : Model) (img : PILImage) (mode : String) : PILImage :=
  { mode := mode, width := img.width, height := img.height,
    content := m.convertContent mode img.content }

/-- `PIL.Image.resize((w, h), resample)`: changes the dimensions, keeps the
mode, resampling the content with the given filter. -/
def pilResize (m : Model) (img : PILImage) (w h : Nat) (r : Resample) : PILImage :=
  { mode := img.mode, width := w, height := h,
    content := m.resampleContent r w h img.content }

/-- The model key chosen from `config["sd_version"]` in `PNP.__init__`;
`none` means the `ValueError` branch. -/
def modelKey (v : String) : Option String :=
  if v = "2.1" then some "stabilityai/stable-diffusion-2-1-base"
  else if v = "2.0" then some "stabilityai/stable-diffusion-2-base"
  else if v = "1.5" then some "/home/heyi/llm/stable-diffusion-v1-5"
  else if v = "xl-base" then some "/home/heyi/llm/stable-diffusion-xl-base-1.0/"
  else none

/-- The attributes of the `PNP` object the sampling code reads. -/
structure PNPState where
  image : DevTensor
  eps : Latent
  text_embeds : List Emb
  pnp_guidance_embeds : List Emb
  qk_injection_timesteps : List Int := []
  conv_injection_timesteps : List Int := []

/-- `get_text_embeds_xl`: encodes prompt and negative prompt and concatenates
`[negative_prompt_embeds, prompt_embeds]` into a batch of two. -/
def get_text_embeds_xl (m : Model) (prompt negative_prompt : String) : List Emb :=
  let pe := (m.encodePrompt prompt negative_prompt).1
  let ne := (m.encodePrompt prompt negative_prompt).2
  [ne, pe]

/-- The first chunk of `torch.chunk(2)` on a batch: its first ⌈n/2⌉ items. -/
def chunk2First (xs : List Emb) : List Emb := xs.take ((xs.length + 1) / 2)

/-- The directory holding the cached latents of the source image:
`os.path.join(latents_path, splitext(basename(image_path))[0])`. -/
def latentsDir (cfg : Config) : String :=
  pathJoin cfg.latents_path (splitextRoot (basename cfg.image_path))

/-- The path of the cached latent file for a timestep:
`os.path.join(dir, f'noisy_latents_{t}.pt')`. -/
def noisyLatentPath (m : Model) (dir : String) (t : Int) : String :=
  pathJoin dir ("noisy_latents_" ++ m.showT t ++ ".pt")

/-- Modelled from the spec: `load_source_latents_t` (defined in
`pnp_utils.py`, which is imported by `pnp.py` but is not under src/) loads the
cached source latents for timestep `t` from the given latents directory. -/
def load_source_latents_t (m : Model) (t : Int) (dir : String) : Latent × Event :=
  let p := noisyLatentPath m dir t
  (m.diskLatent p, Event.readFile p)

/-- The image tensor produced by `get_data`: the source image converted to
RGB, resized to 512x512 with LANCZOS resampling, turned into a tensor and
moved to the configured device. -/
def processedImage (m : Model) (cfg : Config) : PILImage :=
  pilResize m (pilConvert m (m.openImage cfg.image_path) "RGB") 512 512 Resample.lanczos

/-- The `T.ToTensor()(image).to(self.device)` step of `get_data`. -/
def imageTensor (m : Model) (cfg : Config) : DevTensor :=
  { device := cfg.device, val := m.pilToTensor (processedImage m cfg) }

/-- `get_data`: reads and preprocesses the source image, then loads the noisy
latent for the first scheduler timestep; indexing `timesteps[0]` on an empty
timestep tensor raises `IndexError` after the image has been read. -/
def get_data (m : Model) (cfg : Config) :
    List Event × Except PyError (DevTensor × Latent) :=
  let image := imageTensor m cfg
  match m.timesteps.head? with
  | none => ([Event.readFile cfg.image_path], Except.error PyError.indexError)
  | some t0 =>
    let lp := noisyLatentPath m (latentsDir cfg) t0
    ([Event.readFile cfg.image_path, Event.readFile lp],
      Except.ok (image, m.diskLatent lp))

/-- `PNP.__init__`: chooses a model key from `sd_version` (raising
`ValueError` before any model, image or latent is loaded when the version is
unsupported), loads the pipeline and scheduler, runs `get_data`, and encodes
the text prompts.  The returned event list is every effect the constructor
performed. -/
def pnpInit (m : Model) (cfg : Config) : List Event × Except PyError PNPState :=
  match modelKey cfg.sd_version with
  | none =>
    ([], Except.error (PyError.valueError
      ("Stable-diffusion version " ++ cfg.sd_version ++ " not supported.")))
  | some key =>
    let evs0 := [Event.printStr "Loading SD model"]
      ++ (if cfg.sd_version = "xl-base"
          then [Event.loadModel key, Event.loadModel key]
          else [Event.loadModel key])
      ++ [Event.loadModel key, Event.printStr "SD model loaded"]
    let gd := get_data m cfg
    match gd.2 with
    | Except.error e => (evs0 ++ gd.1, Except.error e)
    | Except.ok ie =>
      let te := get_text_embeds_xl m cfg.prompt cfg.negative_prompt
      let pg := chunk2First (get_text_embeds_xl m "" "")
      (evs0 ++ gd.1,
        Except.ok { image := ie.1, eps := ie.2, text_embeds := te,
                    pnp_guidance_embeds := pg })

/-- Modelled from the spec: the DDIM scheduler (from the diffusers library,
not under src/) is a deterministic sampler; its `step` returns
`prev_sample = deterministic part + eta * (variance coefficient) * noise`.
`pnp.py` calls `step(noise_pred, t, x)` without an `eta` argument, so `eta`
takes its default value `0`. -/
def scheduler_step (m : Model) (eta : ℚ) (noise : Latent) (model_output : Latent)
    (t : Int) (x : Latent) : Latent :=
  addL (m.schedDet model_output t x) (scaleL (eta * m.schedVarCoef t) noise)

/-- The three-way unpacking `_, u, c = noise_pred.chunk(3)`.  At its call
site the batch always has exactly three items (source, unconditional,
conditional), so the three chunks are the three individual predictions; a
batch size whose three-way chunking cannot be unpacked into three names is
modelled as failure. -/
def chunk3 (ys : List Latent) : Option (Latent × Latent × Latent) :=
  match ys with
  | [a, b, c] => some (a, b, c)
  | _ => none

/-- The batch `torch.cat([source_latents] + [x] * 2)` handed to the UNet. -/
def latentModelInput (src x : Latent) : List Latent := [src] ++ [x, x]

/-- `denoise_step`: loads the source latents for `t`, builds the batch
`cat([source_latents] + [x] * 2)` and the matching text-embedding batch, runs
the UNet, splits the prediction into three chunks discarding the source
branch, forms the classifier-free-guidance combination, and takes the
scheduler step on the current latent. -/
def denoise_step (m : Model) (cfg : Config) (st : PNPState) (noise : Latent)
    (x : Latent) (t : Int) : Option (Latent × List Event) :=
  let src := load_source_latents_t m t (latentsDir cfg)
  let latent_model_input := latentModelInput src.1 x
  let text_embed_input := st.pnp_guidance_embeds ++ st.text_embeds
  let noise_pred := m.unet latent_model_input t text_embed_input
  match chunk3 noise_pred with
  | none => none
  | some (_, noise_pred_uncond, noise_pred_cond) =>
    let guided := addL noise_pred_uncond
      (scaleL cfg.guidance_scale (subL noise_pred_cond noise_pred_uncond))
    some (scheduler_step m 0 noise guided t x, [src.2])

/-- `init_pnp`: stores the attention and convolution injection timestep lists
(the guarded slices `timesteps[:k] if k >= 0 else []`) on the object and
registers the injection hooks over them. -/
def init_pnp (m : Model) (st : PNPState) (conv_injection_t qk_injection_t : Int) :
    PNPState :=
  { st with
    qk_injection_timesteps :=
      if 0 ≤ qk_injection_t then m.timesteps.take qk_injection_t.toNat else [],
    conv_injection_timesteps :=
      if 0 ≤ conv_injection_t then m.timesteps.take conv_injection_t.toNat else [] }

/-- Modelled from the spec: `register_attention_control_efficient` (defined in
`pnp_utils.py`, not under src/) patches the self-attention layers so that
source queries and keys are injected exactly at the registered
`qk_injection_timesteps`. -/
def injectsAttnAt (st : PNPState) (t : Int) : Prop := t ∈ st.qk_injection_timesteps

/-- Modelled from the spec: `register_conv_control_efficient` (defined in
`pnp_utils.py`, not under src/) patches the convolution layer so that source
features are injected exactly at the registered `conv_injection_timesteps`. -/
def injectsConvAt (st : PNPState) (t : Int) : Prop := t ∈ st.conv_injection_timesteps

/-- `decode_latent`: rescales by `1 / vae.config.scaling_factor`, decodes
through the VAE, and maps the result through `(img / 2 + 0.5).clamp(0, 1)`. -/
def decode_latent (m : Model) (latent : Latent) : Img :=
  let l := scaleL (1 / m.scalingFactor) latent
  let img := m.vaeDecode l
  fun i => max 0 (min 1 (img i / 2 + 1 / 2))

/-- The f-string `f'{output_path}/output-{prompt}.png'` of `sample_loop`. -/
def outputFile (cfg : Config) : String :=
  cfg.output_path ++ "/output-" ++ cfg.prompt ++ ".png"

/-- The `for i, t in enumerate(scheduler.timesteps)` loop of `sample_loop`:
one `denoise_step` per timestep, threading the latent; `rng i` is the ambient
random noise available to the scheduler at step `i` (unused at `eta = 0`). -/
def sampleSteps (m : Model) (cfg : Config) (st : PNPState) (rng : Nat → Latent) :
    Nat → Latent → List Int → Option (Latent × List Event)
  | _, x, [] => some (x, [])
  | i, x, t :: ts => do
    let r1 ← denoise_step m cfg st (rng i) x t
    let r2 ← sampleSteps m cfg st rng (i + 1) r1.1 ts
    some (r2.1, r1.2 ++ r2.2)

/-- `sample_loop`: runs the denoising loop over all scheduler timesteps from
the given initial latent, decodes the final latent, and saves the decoded
image as `output-{prompt}.png` under the output path. -/
def sample_loop (m : Model) (cfg : Config) (st : PNPState) (rng : Nat → Latent)
    (x : Latent) : Option (Img × List Event) := do
  let r ← sampleSteps m cfg st rng 0 x m.timesteps
  let img := decode_latent m r.1
  some (img, r.2 ++ [Event.writeFile (outputFile cfg) (FileData.png img)])

/-- `run_pnp`: computes the injection horizons
`int(n_timesteps * pnp_f_t)` and `int(n_timesteps * pnp_attn_t)`, registers
them via `init_pnp`, and runs `sample_loop` on the stored noisy latent. -/
def run_pnp (m : Model) (cfg : Config) (rng : Nat → Latent) (st : PNPState) :
    PNPState × Option (Img × List Event) :=
  let pnp_f_t := pyTrunc ((cfg.n_timesteps : ℚ) * cfg.pnp_f_t)
  let pnp_attn_t := pyTrunc ((cfg.n_timesteps : ℚ) * cfg.pnp_attn_t)
  let st2 := init_pnp m st pnp_f_t pnp_attn_t
  (st2, sample_loop m cfg st2 rng st2.eps)

/-- A scalar YAML value as `yaml.safe_load` produces it. -/
inductive YamlVal where
  | str (v : String)
  | nat (v : Nat)
  | rat (v : ℚ)
deriving Repr, DecidableEq

/-- A flat YAML mapping, as the configuration files are. -/
abbrev YamlDoc : Type := List (String × YamlVal)

/-- Reading a YAML value as a string. -/
def YamlVal.getStr : YamlVal → Option String
  | .str v => some v
  | _ => none

/-- Reading a YAML value as a non-negative integer. -/
def YamlVal.getNat : YamlVal → Option Nat
  | .nat v => some v
  | _ => none

/-- Reading a YAML value as a rational; YAML integers also count, as Python
arithmetic accepts either. -/
def YamlVal.getRat : YamlVal → Option ℚ
  | .rat v => some v
  | .nat v => some (v : ℚ)
  | _ => none

/-- Looking a key up in a YAML mapping (`config[key]`). -/
def yamlGet (d : YamlDoc) (k : String) : Option YamlVal :=
  List.lookup k d

/-- The twelve `config[...]` reads of `pnp.py`, gathered into a `Config`;
`none` models the `KeyError`/`TypeError` a malformed configuration raises. -/
def decodeConfig (d : YamlDoc) : Option Config :=
  Option.bind (Option.bind (yamlGet d "device") YamlVal.getStr) fun device =>
  Option.bind (Option.bind (yamlGet d "sd_version") YamlVal.getStr) fun sd_version =>
  Option.bind (Option.bind (yamlGet d "n_timesteps") YamlVal.getNat) fun n_timesteps =>
  Option.bind (Option.bind (yamlGet d "prompt") YamlVal.getStr) fun prompt =>
  Option.bind (Option.bind (yamlGet d "negative_prompt") YamlVal.getStr) fun negative_prompt =>
  Option.bind (Option.bind (yamlGet d "guidance_scale") YamlVal.getRat) fun guidance_scale =>
  Option.bind (Option.bind (yamlGet d "pnp_f_t") YamlVal.getRat) fun pnp_f_t =>
  Option.bind (Option.bind (yamlGet d "pnp_attn_t") YamlVal.getRat) fun pnp_attn_t =>
  Option.bind (Option.bind (yamlGet d "image_path") YamlVal.getStr) fun image_path =>
  Option.bind (Option.bind (yamlGet d "latents_path") YamlVal.getStr) fun latents_path =>
  Option.bind (Option.bind (yamlGet d "output_path") YamlVal.getStr) fun output_path =>
  Option.bind (Option.bind (yamlGet d "seed") YamlVal.getNat) fun seed =>
  some { device := device, sd_version := sd_version, n_timesteps := n_timesteps,
         prompt := prompt, negative_prompt := negative_prompt,
         guidance_scale := guidance_scale, pnp_f_t := pnp_f_t,
         pnp_attn_t := pnp_attn_t, image_path := image_path,
         latents_path := latents_path, output_path := output_path, seed := seed }

/-- `yaml.dump` of the parsed configuration object: a YAML mapping holding
exactly the twelve configuration parameters. -/
def encodeConfig (c : Config) : YamlDoc :=
  [("device", YamlVal.str c.device),
   ("sd_version", YamlVal.str c.sd_version),
   ("n_timesteps", YamlVal.nat c.n_timesteps),
   ("prompt", YamlVal.str c.prompt),
   ("negative_prompt", YamlVal.str c.negative_prompt),
   ("guidance_scale", YamlVal.rat c.guidance_scale),
   ("pnp_f_t", YamlVal.rat c.pnp_f_t),
   ("pnp_attn_t", YamlVal.rat c.pnp_attn_t),
   ("image_path", YamlVal.str c.image_path),
   ("latents_path", YamlVal.str c.latents_path),
   ("output_path", YamlVal.str c.output_path),
   ("seed", YamlVal.nat c.seed)]

/-- The path `os.path.join(config["output_path"], "config.yaml")`. -/
def configYamlPath (cfg : Config) : String :=
  pathJoin cfg.output_path "config.yaml"

/-- The `__main__` block: reads the YAML file named by `--config_path`,
creates the output directory, dumps a copy of the configuration into it,
seeds the RNG from `config["seed"]` (`seed_everything` is modelled from the
spec: it only fixes the random seed), prints the configuration, constructs
`PNP` and runs `run_pnp`.  Returns the full event trace and the outcome. -/
def script_main (m : Model) (rng : Nat → Latent) (configPath : String)
    (doc : YamlDoc) : List Event × Except PyError (Option Img) :=
  match decodeConfig doc with
  | none => ([Event.readFile configPath], Except.error PyError.indexError)
  | some cfg =>
    let pre := [Event.readFile configPath, Event.mkdir cfg.output_path,
      Event.writeFile (configYamlPath cfg) (FileData.yaml cfg),
      Event.seedSet cfg.seed, Event.printCfg cfg]
    let ir := pnpInit m cfg
    match ir.2 with
    | Except.error e => (pre ++ ir.1, Except.error e)
    | Except.ok st =>
      match run_pnp m cfg rng st with
      | (_, none) =>
        (pre ++ ir.1,
          Except.error (PyError.valueError "not enough values to unpack"))
      | (_, some r) => (pre ++ ir.1 ++ r.2, Except.ok (some r.1))

/-- A concrete instantiation of the external components, used to evaluate the
embedding on closed inputs. -/
def M0 : Model where
  timesteps := [981, 461]
  showT := fun t => toString t
  unet := fun b _ _ => b
  unet_batch := fun _ _ _ => rfl
  schedDet := fun np _ x => addL x np
  schedVarCoef := fun _ => 1
  vaeDecode := fun l => l
  scalingFactor := 1
  diskLatent := fun _ => fun _ => 1 / 2
  openImage := fun _ => { mode := "L", width := 40, height := 30, content := 7 }
  encodePrompt := fun _ _ => (fun _ => 1, fun _ => 2)
  convertContent := fun _ c => c + 1
  resampleContent := fun _ w h c => c + w + h
  pilToTensor := fun img => fun _ => (img.content : ℚ)

/-- A concrete configuration with a supported stable-diffusion version. -/
def cfg0 : Config where
  device := "cuda"
  sd_version := "2.1"
  n_timesteps := 2
  prompt := "a photo of a cat"
  negative_prompt := ""
  guidance_scale := 15 / 2
  pnp_f_t := 4 / 5
  pnp_attn_t := 1 / 2
  image_path := "data/horse.png"
  latents_path := "latents"
  output_path := "out"
  seed := 1

/-- A concrete configuration with an unsupported stable-diffusion version. -/
def cfgBad : Config := { cfg0 with sd_version := "1.4" }

/-- A concrete ambient noise stream. -/
def rng0 : Nat → Latent := fun _ => fun _ => 0

/-- The YAML document whose parse is `cfg0`. -/
def doc0 : YamlDoc := encodeConfig cfg0

/-- The `PNP` state built by the constructor on the concrete model and
configuration. -/
def stWit : PNPState :=
  match (pnpInit M0 cfg0).2 with
  | Except.ok s => s
  | Except.error _ =>
    { image := { device := "", val := fun _ => 0 }, eps := fun _ => 0,
      text_embeds := [], pnp_guidance_embeds := [] }

/-- The denoising update as a function of the latent alone: the first
component of `denoise_step`, which does not depend on the ambient noise
because the DDIM step runs at `eta = 0`. -/
def denoiseFoldStep (m : Model) (cfg : Config) (st : PNPState) (x : Latent)
    (t : Int) : Option Latent :=
  Option.map Prod.fst (denoise_step m cfg st (fun _ => 0) x t)

lemma scheduler_step_eta_zero (m : Model) (noise g : Latent) (t : Int) (x : Latent) :
    scheduler_step m 0 noise g t x = m.schedDet g t x := by
  funext i
  simp [scheduler_step, addL, scaleL]

lemma denoise_step_form (m : Model) (cfg : Config) (st : PNPState) (noise x : Latent)
    (t : Int) :
    ∃ s u c,
      m.unet (latentModelInput (load_source_latents_t m t (latentsDir cfg)).1 x) t
          (st.pnp_guidance_embeds ++ st.text_embeds) = [s, u, c] ∧
      denoise_step m cfg st noise x t =
        some (m.schedDet (addL u (scaleL cfg.guidance_scale (subL c u))) t x,
          [Event.readFile (noisyLatentPath m (latentsDir cfg) t)]) := by
  have h3 : (m.unet (latentModelInput (load_source_latents_t m t (latentsDir cfg)).1 x) t
      (st.pnp_guidance_embeds ++ st.text_embeds)).length = 3 := by
    rw [m.unet_batch]
    rfl
  obtain ⟨s, u, c, hl⟩ := List.length_eq_three.mp h3
  refine ⟨s, u, c, hl, ?_⟩
  have hl' : m.unet (latentModelInput (m.diskLatent (noisyLatentPath m (latentsDir cfg) t)) x)
      t (st.pnp_guidance_embeds ++ st.text_embeds) = [s, u, c] := by
    simpa [load_source_latents_t] using hl
  simp [denoise_step, load_source_latents_t, hl', chunk3, scheduler_step_eta_zero]

lemma denoise_step_noise_irrel (m : Model) (cfg : Config) (st : PNPState)
    (n1 n2 x : Latent) (t : Int) :
    denoise_step m cfg st n1 x t = denoise_step m cfg st n2 x t := by
  obtain ⟨s, u, c, hl, h1⟩ := denoise_step_form m cfg st n1 x t
  obtain ⟨s', u', c', hl', h2⟩ := denoise_step_form m cfg st n2 x t
  rw [hl] at hl'
  injection hl' with e1 r1
  injection r1 with e2 r2
  injection r2 with e3 _
  rw [h1, h2, e2, e3]

lemma sampleSteps_spec (m : Model) (cfg : Config) (st : PNPState) (rng : Nat → Latent) :
    ∀ (ts : List Int) (i : Nat) (x : Latent),
      sampleSteps m cfg st rng i x ts =
        Option.map
          (fun xf => (xf, ts.map fun t =>
            Event.readFile (noisyLatentPath m (latentsDir cfg) t)))
          (List.foldlM (denoiseFoldStep m cfg st) x ts) := by
  intro ts
  induction ts with
  | nil => intro i x; simp [sampleSteps]
  | cons t ts ih =>
    intro i x
    obtain ⟨s, u, c, hl, hstep⟩ := denoise_step_form m cfg st (rng i) x t
    have hz : denoise_step m cfg st (fun _ => 0) x t = denoise_step m cfg st (rng i) x t :=
      denoise_step_noise_irrel m cfg st _ _ x t
    have hfold : denoiseFoldStep m cfg st x t =
        some (m.schedDet (addL u (scaleL cfg.guidance_scale (subL c u))) t x) := by
      rw [denoiseFoldStep, hz, hstep]
      rfl
    cases hF : List.foldlM (denoiseFoldStep m cfg st)
        (m.schedDet (addL u (scaleL cfg.guidance_scale (subL c u))) t x) ts with
    | none => simp [sampleSteps, hstep, List.foldlM_cons, hfold, ih (i + 1), hF]
    | some xf => simp [sampleSteps, hstep, List.foldlM_cons, hfold, ih (i + 1), hF]

lemma foldlM_denoise_total (m : Model) (cfg : Config) (st : PNPState) :
    ∀ (ts : List Int) (x : Latent),
      ∃ xf, List.foldlM (denoiseFoldStep m cfg st) x ts = some xf := by
  intro ts
  induction ts with
  | nil => intro x; exact ⟨x, rfl⟩
  | cons t ts ih =>
    intro x
    obtain ⟨s, u, c, hl, hstep⟩ := denoise_step_form m cfg st (fun _ => 0) x t
    have hfold : denoiseFoldStep m cfg st x t =
        some (m.schedDet (addL u (scaleL cfg.guidance_scale (subL c u))) t x) := by
      rw [denoiseFoldStep, hstep]
      rfl
    obtain ⟨xf, hf⟩ := ih (m.schedDet (addL u (scaleL cfg.guidance_scale (subL c u))) t x)
    refine ⟨xf, ?_⟩
    rw [List.foldlM_cons, hfold]
    simpa using hf

lemma sample_loop_spec (m : Model) (cfg : Config) (st : PNPState) (rng : Nat → Latent)
    (x : Latent) :
    ∃ xf, List.foldlM (denoiseFoldStep m cfg st) x m.timesteps = some xf ∧
      sample_loop m cfg st rng x =
        some (decode_latent m xf,
          (m.timesteps.map fun t =>
            Event.readFile (noisyLatentPath m (latentsDir cfg) t)) ++
          [Event.writeFile (outputFile cfg) (FileData.png (decode_latent m xf))]) := by
  obtain ⟨xf, hf⟩ := foldlM_denoise_total m cfg st m.timesteps x
  refine ⟨xf, hf, ?_⟩
  simp [sample_loop, sampleSteps_spec, hf]

lemma sample_loop_rng_irrel (m : Model) (cfg : Config) (st : PNPState)
    (r1 r2 : Nat → Latent) (x : Latent) :
    sample_loop m cfg st r1 x = sample_loop m cfg st r2 x := by
  simp [sample_loop, sampleSteps_spec]

lemma pyTrunc_nonneg {q : ℚ} (h : 0 ≤ q) : 0 ≤ pyTrunc q :=
  Int.tdiv_nonneg (Rat.num_nonneg.mpr h) (Int.natCast_nonneg _)

lemma modelKey_eq_none_iff (v : String) :
    modelKey v = none ↔ v ∉ (["2.1", "2.0", "1.5", "xl-base"] : List String) := by
  unfold modelKey
  split_ifs with h1 h2 h3 h4 <;> simp_all

lemma get_data_some (m : Model) (cfg : Config) (t0 : Int)
    (h : m.timesteps.head? = some t0) :
    get_data m cfg = ([Event.readFile cfg.image_path,
        Event.readFile (noisyLatentPath m (latentsDir cfg) t0)],
      Except.ok (imageTensor m cfg,
        m.diskLatent (noisyLatentPath m (latentsDir cfg) t0))) := by
  simp [get_data, h]

lemma get_data_err (m : Model) (cfg : Config) (h : m.timesteps.head? = none) :
    get_data m cfg =
      ([Event.readFile cfg.image_path], Except.error PyError.indexError) := by
  simp [get_data, h]

lemma pnpInit_unsupported (m : Model) (cfg : Config)
    (h : modelKey cfg.sd_version = none) :
    pnpInit m cfg = ([], Except.error (PyError.valueError
      ("Stable-diffusion version " ++ cfg.sd_version ++ " not supported."))) := by
  simp [pnpInit, h]

lemma pnpInit_trace (m : Model) (cfg : Config) (k : String)
    (h : modelKey cfg.sd_version = some k) :
    (pnpInit m cfg).1 = ([Event.printStr "Loading SD model"]
      ++ (if cfg.sd_version = "xl-base"
          then [Event.loadModel k, Event.loadModel k]
          else [Event.loadModel k])
      ++ [Event.loadModel k, Event.printStr "SD model loaded"])
      ++ (get_data m cfg).1 := by
  rcases hgd : (get_data m cfg).2 with e | v
  · simp [pnpInit, h, hgd]
  · simp [pnpInit, h, hgd]

lemma pnpInit_ok (m : Model) (cfg : Config) (st : PNPState)
    (h : (pnpInit m cfg).2 = Except.ok st) :
    ∃ t0, m.timesteps.head? = some t0 ∧
      st.eps = m.diskLatent (noisyLatentPath m (latentsDir cfg) t0) ∧
      st.image = imageTensor m cfg ∧
      st.text_embeds = get_text_embeds_xl m cfg.prompt cfg.negative_prompt ∧
      st.pnp_guidance_embeds = chunk2First (get_text_embeds_xl m "" "") ∧
      st.qk_injection_timesteps = [] ∧ st.conv_injection_timesteps = [] := by
  rcases hk : modelKey cfg.sd_version with _ | k
  · rw [pnpInit_unsupported m cfg hk] at h
    simp at h
  · rcases ht : m.timesteps.head? with _ | t0
    · have hgd := get_data_err m cfg ht
      simp [pnpInit, hk, hgd] at h
    · have hgd := get_data_some m cfg t0 ht
      refine ⟨t0, rfl, ?_⟩
      simp [pnpInit, hk, hgd] at h
      rw [← h]
      exact ⟨rfl, rfl, rfl, rfl, rfl, rfl⟩

lemma pnpInit_events_shape (m : Model) (cfg : Config) :
    ∀ e ∈ (pnpInit m cfg).1,
      (∃ p, e = Event.readFile p) ∨ (∃ k, e = Event.loadModel k) ∨
      (∃ s, e = Event.printStr s) := by
  intro e he
  rcases hk : modelKey cfg.sd_version with _ | k
  · rw [pnpInit_unsupported m cfg hk] at he
    simp at he
  · rw [pnpInit_trace m cfg k hk] at he
    rcases ht : m.timesteps.head? with _ | t0
    · rw [get_data_err m cfg ht] at he
      by_cases hxl : cfg.sd_version = "xl-base" <;>
        simp [hxl] at he <;>
        rcases he with rfl | rfl | rfl | rfl | rfl <;> simp
    · rw [get_data_some m cfg t0 ht] at he
      by_cases hxl : cfg.sd_version = "xl-base" <;>
        simp [hxl] at he <;>
        rcases he with rfl | rfl | rfl | rfl | rfl | rfl <;> simp

lemma run_pnp_fst (m : Model) (cfg : Config) (rng : Nat → Latent) (st : PNPState) :
    (run_pnp m cfg rng st).1 =
      init_pnp m st (pyTrunc ((cfg.n_timesteps : ℚ) * cfg.pnp_f_t))
        (pyTrunc ((cfg.n_timesteps : ℚ) * cfg.pnp_attn_t)) := rfl

lemma run_pnp_some (m : Model) (cfg : Config) (rng : Nat → Latent) (st : PNPState) :
    ∃ xf,
      List.foldlM (denoiseFoldStep m cfg ((run_pnp m cfg rng st).1)) st.eps
          m.timesteps = some xf ∧
      (run_pnp m cfg rng st).2 =
        some (decode_latent m xf,
          (m.timesteps.map fun t =>
            Event.readFile (noisyLatentPath m (latentsDir cfg) t)) ++
          [Event.writeFile (outputFile cfg) (FileData.png (decode_latent m xf))]) := by
  obtain ⟨xf, hf, hs⟩ := sample_loop_spec m cfg ((run_pnp m cfg rng st).1) rng st.eps
  have hsnd : (run_pnp m cfg rng st).2 =
      sample_loop m cfg ((run_pnp m cfg rng st).1) rng st.eps := rfl
  exact ⟨xf, hf, by rw [hsnd, hs]⟩

lemma script_main_trace (m : Model) (rng : Nat → Latent) (configPath : String)
    (doc : YamlDoc) (cfg : Config) (h : decodeConfig doc = some cfg) :
    ∃ rest, (script_main m rng configPath doc).1 =
      [Event.readFile configPath, Event.mkdir cfg.output_path,
       Event.writeFile (configYamlPath cfg) (FileData.yaml cfg),
       Event.seedSet cfg.seed, Event.printCfg cfg] ++ rest ∧
      ∀ e ∈ rest, (∃ p, e = Event.readFile p) ∨ (∃ k, e = Event.loadModel k) ∨
        (∃ s, e = Event.printStr s) ∨
        (∃ img, e = Event.writeFile (outputFile cfg) (FileData.png img)) := by
  rcases hini : (pnpInit m cfg).2 with err | st
  · refine ⟨(pnpInit m cfg).1, ?_, ?_⟩
    · simp [script_main, h, hini]
    · intro e he
      rcases pnpInit_events_shape m cfg e he with h1 | h1 | h1 <;> tauto
  · rcases hrp : run_pnp m cfg rng st with ⟨st2, res⟩
    obtain ⟨xf, hf, hs⟩ := run_pnp_some m cfg rng st
    rw [hrp] at hs
    simp only at hs
    subst hs
    refine ⟨(pnpInit m cfg).1 ++
      ((m.timesteps.map fun t =>
        Event.readFile (noisyLatentPath m (latentsDir cfg) t)) ++
       [Event.writeFile (outputFile cfg) (FileData.png (decode_latent m xf))]),
      ?_, ?_⟩
    · simp [script_main, h, hini, hrp]
    · intro e he
      rw [List.mem_append] at he
      rcases he with he | he
      · rcases pnpInit_events_shape m cfg e he with h1 | h1 | h1 <;> tauto
      · rw [List.mem_append] at he
        rcases he with he | he
        · rw [List.mem_map] at he
          obtain ⟨t, _, rfl⟩ := he
          exact Or.inl ⟨_, rfl⟩
        · rw [List.mem_singleton] at he
          subst he
          exact Or.inr (Or.inr (Or.inr ⟨_, rfl⟩))

lemma decodeConfig_fields (d : YamlDoc) (cfg : Config) (h : decodeConfig d = some cfg) :
    Option.bind (yamlGet d "device") YamlVal.getStr = some cfg.device ∧
    Option.bind (yamlGet d "sd_version") YamlVal.getStr = some cfg.sd_version ∧
    Option.bind (yamlGet d "n_timesteps") YamlVal.getNat = some cfg.n_timesteps ∧
    Option.bind (yamlGet d "prompt") YamlVal.getStr = some cfg.prompt ∧
    Option.bind (yamlGet d "negative_prompt") YamlVal.getStr = some cfg.negative_prompt ∧
    Option.bind (yamlGet d "guidance_scale") YamlVal.getRat = some cfg.guidance_scale ∧
    Option.bind (yamlGet d "pnp_f_t") YamlVal.getRat = some cfg.pnp_f_t ∧
    Option.bind (yamlGet d "pnp_attn_t") YamlVal.getRat = some cfg.pnp_attn_t ∧
    Option.bind (yamlGet d "image_path") YamlVal.getStr = some cfg.image_path ∧
    Option.bind (yamlGet d "latents_path") YamlVal.getStr = some cfg.latents_path ∧
    Option.bind (yamlGet d "output_path") YamlVal.getStr = some cfg.output_path ∧
    Option.bind (yamlGet d "seed") YamlVal.getNat = some cfg.seed := by
  rw [decodeConfig] at h
  obtain ⟨v1, h1, h⟩ := Option.bind_eq_some.mp h
  obtain ⟨v2, h2, h⟩ := Option.bind_eq_some.mp h
  obtain ⟨v3, h3, h⟩ := Option.bind_eq_some.mp h
  obtain ⟨v4, h4, h⟩ := Option.bind_eq_some.mp h
  obtain ⟨v5, h5, h⟩ := Option.bind_eq_some.mp h
  obtain ⟨v6, h6, h⟩ := Option.bind_eq_some.mp h
  obtain ⟨v7, h7, h⟩ := Option.bind_eq_some.mp h
  obtain ⟨v8, h8, h⟩ := Option.bind_eq_some.mp h
  obtain ⟨v9, h9, h⟩ := Option.bind_eq_some.mp h
  obtain ⟨v10, h10, h⟩ := Option.bind_eq_some.mp h
  obtain ⟨v11, h11, h⟩ := Option.bind_eq_some.mp h
  obtain ⟨v12, h12, h⟩ := Option.bind_eq_some.mp h
  rw [Option.some_inj] at h
  subst h
  exact ⟨h1, h2, h3, h4, h5, h6, h7, h8, h9, h10, h11, h12⟩

lemma decode_encode (c : Config) : decodeConfig (encodeConfig c) = some c := rfl

/-- C1: `sample_loop` applies `denoise_step` once per scheduler timestep,
iterating over `scheduler.timesteps` in order (a monadic left fold of the
denoising update) starting from the noisy latent that the constructor loaded
from disk, then decodes the final latent through the VAE and saves the decoded
image as `output-{prompt}.png` under the configured output path. -/
theorem c1_sample_loop_per_timestep (m : Model) (cfg : Config) (rng : Nat → Latent)
    (st st2 : PNPState) (res : Option (Img × List Event))
    (hinit : (pnpInit m cfg).2 = Except.ok st)
    (hrun : run_pnp m cfg rng st = (st2, res)) :
    ∃ t0 xf img evs,
      m.timesteps.head? = some t0 ∧
      st.eps = m.diskLatent (noisyLatentPath m (latentsDir cfg) t0) ∧
      List.foldlM (denoiseFoldStep m cfg st2) st.eps m.timesteps = some xf ∧
      res = some (img, evs) ∧
      img = decode_latent m xf ∧
      evs.getLast? = some (Event.writeFile (outputFile cfg) (FileData.png img)) ∧
      outputFile cfg = cfg.output_path ++ "/output-" ++ cfg.prompt ++ ".png" := by
  obtain ⟨t0, ht, heps, -⟩ := pnpInit_ok m cfg st hinit
  obtain ⟨xf, hf, hs⟩ := run_pnp_some m cfg rng st
  rw [hrun] at hf hs
  simp only at hf hs
  subst hs
  refine ⟨t0, xf, decode_latent m xf, _, ht, heps, hf, rfl, rfl, ?_, rfl⟩
  rw [List.getLast?_concat]

/-- C2: `run_pnp` computes the injection horizons as
`int(n_timesteps * pnp_f_t)` and `int(n_timesteps * pnp_attn_t)`, and
`init_pnp` sets the convolution-injection timesteps to the first `pnp_f_t`
scheduler timesteps and the attention injection timesteps to the first
`pnp_attn_t` scheduler timesteps; the registered hooks inject source features
exactly at those timesteps. -/
theorem c2_injection_horizons (m : Model) (cfg : Config) (rng : Nat → Latent)
    (st : PNPState) (hf : 0 ≤ cfg.pnp_f_t) (ha : 0 ≤ cfg.pnp_attn_t) :
    ((run_pnp m cfg rng st).1).conv_injection_timesteps =
      m.timesteps.take (pyTrunc ((cfg.n_timesteps : ℚ) * cfg.pnp_f_t)).toNat ∧
    ((run_pnp m cfg rng st).1).qk_injection_timesteps =
      m.timesteps.take (pyTrunc ((cfg.n_timesteps : ℚ) * cfg.pnp_attn_t)).toNat ∧
    (∀ t, injectsConvAt (run_pnp m cfg rng st).1 t ↔
      t ∈ m.timesteps.take (pyTrunc ((cfg.n_timesteps : ℚ) * cfg.pnp_f_t)).toNat) ∧
    (∀ t, injectsAttnAt (run_pnp m cfg rng st).1 t ↔
      t ∈ m.timesteps.take (pyTrunc ((cfg.n_timesteps : ℚ) * cfg.pnp_attn_t)).toNat) := by
  have h1 : 0 ≤ pyTrunc ((cfg.n_timesteps : ℚ) * cfg.pnp_f_t) :=
    pyTrunc_nonneg (mul_nonneg (Nat.cast_nonneg _) hf)
  have h2 : 0 ≤ pyTrunc ((cfg.n_timesteps : ℚ) * cfg.pnp_attn_t) :=
    pyTrunc_nonneg (mul_nonneg (Nat.cast_nonneg _) ha)
  rw [run_pnp_fst]
  simp [init_pnp, injectsConvAt, injectsAttnAt, h1, h2]

/-- C3: the initial latent comes from the file
`noisy_latents_{timesteps[0]}.pt` inside
`latents_path/<basename of the image without extension>/`, and at each
timestep `t` `denoise_step` loads the cached source latents for `t` from that
directory and concatenates them with two copies of the current latent as the
UNet batch input. -/
theorem c3_latent_trajectory_from_disk (m : Model) (cfg : Config) (st : PNPState)
    (noise x : Latent) (t t0 : Int) (h0 : m.timesteps.head? = some t0) :
    (get_data m cfg).2 = Except.ok (imageTensor m cfg,
      m.diskLatent (noisyLatentPath m (latentsDir cfg) t0)) ∧
    Event.readFile (noisyLatentPath m (latentsDir cfg) t0) ∈ (get_data m cfg).1 ∧
    latentsDir cfg = pathJoin cfg.latents_path (splitextRoot (basename cfg.image_path)) ∧
    noisyLatentPath m (latentsDir cfg) t =
      pathJoin (latentsDir cfg) ("noisy_latents_" ++ m.showT t ++ ".pt") ∧
    load_source_latents_t m t (latentsDir cfg) =
      (m.diskLatent (noisyLatentPath m (latentsDir cfg) t),
       Event.readFile (noisyLatentPath m (latentsDir cfg) t)) ∧
    latentModelInput (load_source_latents_t m t (latentsDir cfg)).1 x =
      [m.diskLatent (noisyLatentPath m (latentsDir cfg) t), x, x] ∧
    (∃ y, denoise_step m cfg st noise x t =
      some (y, [Event.readFile (noisyLatentPath m (latentsDir cfg) t)])) := by
  rw [get_data_some m cfg t0 h0]
  refine ⟨rfl, by simp, rfl, rfl, rfl, rfl, ?_⟩
  obtain ⟨s, u, c, -, hd⟩ := denoise_step_form m cfg st noise x t
  exact ⟨_, hd⟩

/-- C4: in every denoising step the UNet prediction over the three-item batch
is split into three chunks; the source-branch chunk is discarded, the guided
prediction is `noise_pred_uncond + guidance_scale * (noise_pred_cond -
noise_pred_uncond)`, and the next latent is the `prev_sample` of the scheduler
step applied to that guided prediction, the timestep, and the current
latent. -/
theorem c4_guidance_combination (m : Model) (cfg : Config) (st : PNPState)
    (noise x : Latent) (t : Int) :
    ∃ s u c,
      m.unet (latentModelInput (load_source_latents_t m t (latentsDir cfg)).1 x) t
        (st.pnp_guidance_embeds ++ st.text_embeds) = [s, u, c] ∧
      chunk3 (m.unet (latentModelInput (load_source_latents_t m t (latentsDir cfg)).1 x) t
        (st.pnp_guidance_embeds ++ st.text_embeds)) = some (s, u, c) ∧
      denoise_step m cfg st noise x t =
        some (scheduler_step m 0 noise
          (addL u (scaleL cfg.guidance_scale (subL c u))) t x,
          [Event.readFile (noisyLatentPath m (latentsDir cfg) t)]) := by
  obtain ⟨s, u, c, hl, hd⟩ := denoise_step_form m cfg st noise x t
  refine ⟨s, u, c, hl, by rw [hl]; rfl, ?_⟩
  rw [hd, scheduler_step_eta_zero]

/-- C5: sampling is deterministic.  The ambient random stream available to
the scheduler is irrelevant, because `step` runs with its default `eta = 0`:
two executions with the same model, configuration and cached latents but
arbitrary random streams produce the same final latent, the same event trace
and the same saved image. -/
theorem c5_run_deterministic (m : Model) (configPath : String) (doc : YamlDoc)
    (ra rb : Nat → Latent) :
    (∀ cfg st x, sample_loop m cfg st ra x = sample_loop m cfg st rb x) ∧
    script_main m ra configPath doc = script_main m rb configPath doc := by
  refine ⟨fun cfg st x => sample_loop_rng_irrel m cfg st ra rb x, ?_⟩
  have hrp : ∀ cfg st, run_pnp m cfg ra st = run_pnp m cfg rb st := fun cfg st =>
    congrArg (Prod.mk _) (sample_loop_rng_irrel m cfg _ ra rb _)
  simp only [script_main, hrp]

/-- C6: every runtime parameter is read from the single YAML mapping, and
before the run starts the script creates the output directory and writes a
copy of the configuration — one that parses back to exactly the configuration
it read — to `output_path/config.yaml`. -/
theorem c6_config_driven (m : Model) (rng : Nat → Latent) (configPath : String)
    (doc : YamlDoc) (cfg : Config) (h : decodeConfig doc = some cfg) :
    decodeConfig (encodeConfig cfg) = some cfg ∧
    (Option.bind (yamlGet doc "device") YamlVal.getStr = some cfg.device ∧
     Option.bind (yamlGet doc "sd_version") YamlVal.getStr = some cfg.sd_version ∧
     Option.bind (yamlGet doc "n_timesteps") YamlVal.getNat = some cfg.n_timesteps ∧
     Option.bind (yamlGet doc "prompt") YamlVal.getStr = some cfg.prompt ∧
     Option.bind (yamlGet doc "negative_prompt") YamlVal.getStr = some cfg.negative_prompt ∧
     Option.bind (yamlGet doc "guidance_scale") YamlVal.getRat = some cfg.guidance_scale ∧
     Option.bind (yamlGet doc "pnp_f_t") YamlVal.getRat = some cfg.pnp_f_t ∧
     Option.bind (yamlGet doc "pnp_attn_t") YamlVal.getRat = some cfg.pnp_attn_t ∧
     Option.bind (yamlGet doc "image_path") YamlVal.getStr = some cfg.image_path ∧
     Option.bind (yamlGet doc "latents_path") YamlVal.getStr = some cfg.latents_path ∧
     Option.bind (yamlGet doc "output_path") YamlVal.getStr = some cfg.output_path ∧
     Option.bind (yamlGet doc "seed") YamlVal.getNat = some cfg.seed) ∧
    ∃ rest, (script_main m rng configPath doc).1 =
      [Event.readFile configPath, Event.mkdir cfg.output_path,
       Event.writeFile (configYamlPath cfg) (FileData.yaml cfg),
       Event.seedSet cfg.seed, Event.printCfg cfg] ++ rest := by
  refine ⟨decode_encode cfg, decodeConfig_fields doc cfg h, ?_⟩
  obtain ⟨rest, htr, -⟩ := script_main_trace m rng configPath doc cfg h
  exact ⟨rest, htr⟩

/-- C7: beyond what the model library does, the script's only filesystem
writes are creating the output directory, dumping `config.yaml` into it and
saving the single output PNG; no other path — in particular neither the input
image nor any cached latent file it reads — is ever written. -/
theorem c7_filesystem_frame (m : Model) (rng : Nat → Latent) (configPath : String)
    (doc : YamlDoc) (cfg : Config) (h : decodeConfig doc = some cfg) :
    (∀ e ∈ (script_main m rng configPath doc).1, ∀ p d, e = Event.writeFile p d →
      (p = configYamlPath cfg ∧ d = FileData.yaml cfg) ∨
      (p = outputFile cfg ∧ ∃ img, d = FileData.png img)) ∧
    (∀ e ∈ (script_main m rng configPath doc).1, ∀ p, e = Event.mkdir p →
      p = cfg.output_path) ∧
    (∀ q, q ≠ configYamlPath cfg → q ≠ outputFile cfg →
      ∀ d, Event.writeFile q d ∉ (script_main m rng configPath doc).1) ∧
    (cfg.image_path ≠ configYamlPath cfg → cfg.image_path ≠ outputFile cfg →
      ∀ d, Event.writeFile cfg.image_path d ∉ (script_main m rng configPath doc).1) := by
  obtain ⟨rest, htr, hrest⟩ := script_main_trace m rng configPath doc cfg h
  have hwr : ∀ e ∈ (script_main m rng configPath doc).1, ∀ p d,
      e = Event.writeFile p d →
      (p = configYamlPath cfg ∧ d = FileData.yaml cfg) ∨
      (p = outputFile cfg ∧ ∃ img, d = FileData.png img) := by
    intro e he p d hepd
    subst hepd
    rw [htr, List.mem_append] at he
    rcases he with he | he
    · simp at he
      exact Or.inl ⟨he.1, he.2⟩
    · rcases hrest _ he with ⟨p', hp⟩ | ⟨k, hk⟩ | ⟨s, hs⟩ | ⟨img, hi⟩
      · simp at hp
      · simp at hk
      · simp at hs
      · rw [Event.writeFile.injEq] at hi
        exact Or.inr ⟨hi.1, img, hi.2⟩
  refine ⟨hwr, ?_, ?_, ?_⟩
  · intro e he p hep
    subst hep
    rw [htr, List.mem_append] at he
    rcases he with he | he
    · simp at he
      exact he
    · rcases hrest _ he with ⟨p', hp⟩ | ⟨k, hk⟩ | ⟨s, hs⟩ | ⟨img, hi⟩
      · simp at hp
      · simp at hk
      · simp at hs
      · simp at hi
  · intro q h1 h2 d hmem
    rcases hwr _ hmem q d rfl with ⟨hq, -⟩ | ⟨hq, -⟩
    · exact h1 hq
    · exact h2 hq
  · intro h1 h2 d hmem
    rcases hwr _ hmem cfg.image_path d rfl with ⟨hq, -⟩ | ⟨hq, -⟩
    · exact h1 hq
    · exact h2 hq

/-- C8: `get_data` converts every source image, whatever its original mode
and dimensions, to RGB and resizes it to exactly 512x512 with LANCZOS
resampling before turning it into a tensor on the configured device. -/
theorem c8_image_preprocessing (m : Model) (cfg : Config) :
    (processedImage m cfg).mode = "RGB" ∧
    (processedImage m cfg).width = 512 ∧
    (processedImage m cfg).height = 512 ∧
    processedImage m cfg =
      pilResize m (pilConvert m (m.openImage cfg.image_path) "RGB") 512 512
        Resample.lanczos ∧
    (processedImage m cfg).content =
      m.resampleContent Resample.lanczos 512 512
        (m.convertContent "RGB" (m.openImage cfg.image_path).content) ∧
    (imageTensor m cfg).device = cfg.device ∧
    (imageTensor m cfg).val = m.pilToTensor (processedImage m cfg) ∧
    (∀ t0, m.timesteps.head? = some t0 →
      (get_data m cfg).2 = Except.ok (imageTensor m cfg,
        m.diskLatent (noisyLatentPath m (latentsDir cfg) t0))) := by
  refine ⟨rfl, rfl, rfl, rfl, rfl, rfl, rfl, ?_⟩
  intro t0 h0
  rw [get_data_some m cfg t0 h0]

/-- C9: the constructor raises `ValueError` exactly when
`config["sd_version"]` is not one of the four supported versions, and in that
case it performs no effect at all: no model load, no image read, no latent
read. -/
theorem c9_unsupported_version (m : Model) (cfg : Config) :
    ((∃ s, (pnpInit m cfg).2 = Except.error (PyError.valueError s)) ↔
      cfg.sd_version ∉ (["2.1", "2.0", "1.5", "xl-base"] : List String)) ∧
    (cfg.sd_version ∉ (["2.1", "2.0", "1.5", "xl-base"] : List String) →
      pnpInit m cfg = ([], Except.error (PyError.valueError
        ("Stable-diffusion version " ++ cfg.sd_version ++ " not supported.")))) := by
  have hmem := modelKey_eq_none_iff cfg.sd_version
  constructor
  · constructor
    · rintro ⟨s, hs⟩
      by_contra hv
      have hk : modelKey cfg.sd_version ≠ none := fun hn => (hmem.mp hn) hv
      obtain ⟨k, hk⟩ := Option.ne_none_iff_exists'.mp hk
      rcases ht : m.timesteps.head? with _ | t0
      · have hix : (pnpInit m cfg).2 = Except.error PyError.indexError := by
          simp [pnpInit, hk, get_data_err m cfg ht]
        rw [hix] at hs
        simp at hs
      · have hok : (pnpInit m cfg).2 = Except.ok
            { image := imageTensor m cfg,
              eps := m.diskLatent (noisyLatentPath m (latentsDir cfg) t0),
              text_embeds := get_text_embeds_xl m cfg.prompt cfg.negative_prompt,
              pnp_guidance_embeds := chunk2First (get_text_embeds_xl m "" "") } := by
          simp [pnpInit, hk, get_data_some m cfg t0 ht]
        rw [hok] at hs
        simp at hs
    · intro hv
      exact ⟨_, by rw [pnpInit_unsupported m cfg (hmem.mpr hv)]⟩
  · intro hv
    exact pnpInit_unsupported m cfg (hmem.mpr hv)

lemma slice_guard_spec (ts : List Int) (k : Int) :
    (∃ r, (if 0 ≤ k then ts.take k.toNat else []) ++ r = ts) ∧
    (k < 0 → (if 0 ≤ k then ts.take k.toNat else []) = []) ∧
    (k = 0 → (if 0 ≤ k then ts.take k.toNat else []) = []) ∧
    ((ts.length : Int) ≤ k → (if 0 ≤ k then ts.take k.toNat else []) = ts) := by
  by_cases hk : 0 ≤ k
  · rw [if_pos hk]
    refine ⟨⟨ts.drop k.toNat, List.take_append_drop _ _⟩, ?_, ?_, ?_⟩
    · intro h
      exact absurd h (by omega)
    · intro h
      subst h
      simp
    · intro h
      apply List.take_of_length_le
      omega
  · rw [if_neg hk]
    refine ⟨⟨ts, by simp⟩, fun _ => rfl, fun _ => rfl, ?_⟩
    intro h
    exfalso
    omega

/-- C10: each injection timestep list produced by `init_pnp` is an initial
segment of `scheduler.timesteps`; a negative argument yields the empty list
(the explicit guard prevents Python's negative slicing), zero yields the
empty list, and an argument at least the number of timesteps yields all of
them. -/
theorem c10_injection_slices (m : Model) (st : PNPState) (ct qt : Int) :
    (∃ r, (init_pnp m st ct qt).conv_injection_timesteps ++ r = m.timesteps) ∧
    (∃ r, (init_pnp m st ct qt).qk_injection_timesteps ++ r = m.timesteps) ∧
    (ct < 0 → (init_pnp m st ct qt).conv_injection_timesteps = []) ∧
    (qt < 0 → (init_pnp m st ct qt).qk_injection_timesteps = []) ∧
    (ct = 0 → (init_pnp m st ct qt).conv_injection_timesteps = []) ∧
    (qt = 0 → (init_pnp m st ct qt).qk_injection_timesteps = []) ∧
    ((m.timesteps.length : Int) ≤ ct →
      (init_pnp m st ct qt).conv_injection_timesteps = m.timesteps) ∧
    ((m.timesteps.length : Int) ≤ qt →
      (init_pnp m st ct qt).qk_injection_timesteps = m.timesteps) := by
  have hc := slice_guard_spec m.timesteps ct
  have hq := slice_guard_spec m.timesteps qt
  have e1 : (init_pnp m st ct qt).conv_injection_timesteps =
      (if 0 ≤ ct then m.timesteps.take ct.toNat else []) := rfl
  have e2 : (init_pnp m st ct qt).qk_injection_timesteps =
      (if 0 ≤ qt then m.timesteps.take qt.toNat else []) := rfl
  rw [e1, e2]
  exact ⟨hc.1, hq.1, hc.2.1, hq.2.1, hc.2.2.1, hq.2.2.1, hc.2.2.2, hq.2.2.2⟩

theorem c1_witness :
    ∃ t0 xf img evs,
      M0.timesteps.head? = some t0 ∧
      stWit.eps = M0.diskLatent (noisyLatentPath M0 (latentsDir cfg0) t0) ∧
      List.foldlM (denoiseFoldStep M0 cfg0 ((run_pnp M0 cfg0 rng0 stWit).1))
        stWit.eps M0.timesteps = some xf ∧
      (run_pnp M0 cfg0 rng0 stWit).2 = some (img, evs) ∧
      img = decode_latent M0 xf ∧
      evs.getLast? = some (Event.writeFile (outputFile cfg0) (FileData.png img)) ∧
      outputFile cfg0 = cfg0.output_path ++ "/output-" ++ cfg0.prompt ++ ".png" :=
  c1_sample_loop_per_timestep M0 cfg0 rng0 stWit ((run_pnp M0 cfg0 rng0 stWit).1)
    ((run_pnp M0 cfg0 rng0 stWit).2) rfl rfl

theorem c2_witness :
    0 ≤ cfg0.pnp_f_t ∧ 0 ≤ cfg0.pnp_attn_t ∧
    ((run_pnp M0 cfg0 rng0 stWit).1).conv_injection_timesteps =
      M0.timesteps.take (pyTrunc ((cfg0.n_timesteps : ℚ) * cfg0.pnp_f_t)).toNat ∧
    ((run_pnp M0 cfg0 rng0 stWit).1).qk_injection_timesteps =
      M0.timesteps.take (pyTrunc ((cfg0.n_timesteps : ℚ) * cfg0.pnp_attn_t)).toNat :=
  ⟨by norm_num [cfg0], by norm_num [cfg0],
    (c2_injection_horizons M0 cfg0 rng0 stWit (by norm_num [cfg0])
      (by norm_num [cfg0])).1,
    (c2_injection_horizons M0 cfg0 rng0 stWit (by norm_num [cfg0])
      (by norm_num [cfg0])).2.1⟩

theorem c3_witness :
    (get_data M0 cfg0).2 = Except.ok (imageTensor M0 cfg0,
      M0.diskLatent (noisyLatentPath M0 (latentsDir cfg0) 981)) ∧
    Event.readFile (noisyLatentPath M0 (latentsDir cfg0) 981) ∈ (get_data M0 cfg0).1 ∧
    latentsDir cfg0 =
      pathJoin cfg0.latents_path (splitextRoot (basename cfg0.image_path)) ∧
    noisyLatentPath M0 (latentsDir cfg0) 461 =
      pathJoin (latentsDir cfg0) ("noisy_latents_" ++ M0.showT 461 ++ ".pt") ∧
    load_source_latents_t M0 461 (latentsDir cfg0) =
      (M0.diskLatent (noisyLatentPath M0 (latentsDir cfg0) 461),
       Event.readFile (noisyLatentPath M0 (latentsDir cfg0) 461)) ∧
    latentModelInput (load_source_latents_t M0 461 (latentsDir cfg0)).1 (fun _ => 0) =
      [M0.diskLatent (noisyLatentPath M0 (latentsDir cfg0) 461),
       fun _ => 0, fun _ => 0] ∧
    (∃ y, denoise_step M0 cfg0 stWit (fun _ => 0) (fun _ => 0) 461 =
      some (y, [Event.readFile (noisyLatentPath M0 (latentsDir cfg0) 461)])) :=
  c3_latent_trajectory_from_disk M0 cfg0 stWit (fun _ => 0) (fun _ => 0) 461 981 rfl

theorem c6_witness :
    decodeConfig (encodeConfig cfg0) = some cfg0 ∧
    (Option.bind (yamlGet doc0 "device") YamlVal.getStr = some cfg0.device ∧
     Option.bind (yamlGet doc0 "sd_version") YamlVal.getStr = some cfg0.sd_version ∧
     Option.bind (yamlGet doc0 "n_timesteps") YamlVal.getNat = some cfg0.n_timesteps ∧
     Option.bind (yamlGet doc0 "prompt") YamlVal.getStr = some cfg0.prompt ∧
     Option.bind (yamlGet doc0 "negative_prompt") YamlVal.getStr = some cfg0.negative_prompt ∧
     Option.bind (yamlGet doc0 "guidance_scale") YamlVal.getRat = some cfg0.guidance_scale ∧
     Option.bind (yamlGet doc0 "pnp_f_t") YamlVal.getRat = some cfg0.pnp_f_t ∧
     Option.bind (yamlGet doc0 "pnp_attn_t") YamlVal.getRat = some cfg0.pnp_attn_t ∧
     Option.bind (yamlGet doc0 "image_path") YamlVal.getStr = some cfg0.image_path ∧
     Option.bind (yamlGet doc0 "latents_path") YamlVal.getStr = some cfg0.latents_path ∧
     Option.bind (yamlGet doc0 "output_path") YamlVal.getStr = some cfg0.output_path ∧
     Option.bind (yamlGet doc0 "seed") YamlVal.getNat = some cfg0.seed) ∧
    ∃ rest, (script_main M0 rng0 "pnp-configs/config-horse.yaml" doc0).1 =
      [Event.readFile "pnp-configs/config-horse.yaml", Event.mkdir cfg0.output_path,
       Event.writeFile (configYamlPath cfg0) (FileData.yaml cfg0),
       Event.seedSet cfg0.seed, Event.printCfg cfg0] ++ rest :=
  c6_config_driven M0 rng0 "pnp-configs/config-horse.yaml" doc0 cfg0 rfl

theorem c7_witness :
    Event.writeFile cfg0.image_path (FileData.yaml cfg0) ∉
      (script_main M0 rng0 "pnp-configs/config-horse.yaml" doc0).1 :=
  (c7_filesystem_frame M0 rng0 "pnp-configs/config-horse.yaml" doc0 cfg0 rfl).2.2.2
    (by decide) (by decide) (FileData.yaml cfg0)

theorem c8_witness :
    M0.timesteps.head? = some 981 ∧
    (get_data M0 cfg0).2 = Except.ok (imageTensor M0 cfg0,
      M0.diskLatent (noisyLatentPath M0 (latentsDir cfg0) 981)) :=
  ⟨rfl, (c8_image_preprocessing M0 cfg0).2.2.2.2.2.2.2 981 rfl⟩

theorem c9_witness :
    cfgBad.sd_version ∉ (["2.1", "2.0", "1.5", "xl-base"] : List String) ∧
    pnpInit M0 cfgBad = ([], Except.error (PyError.valueError
      ("Stable-diffusion version " ++ cfgBad.sd_version ++ " not supported."))) :=
  ⟨by decide, (c9_unsupported_version M0 cfgBad).2 (by decide)⟩

theorem c10_witness :
    (init_pnp M0 stWit (-3) 5).conv_injection_timesteps = [] ∧
    (init_pnp M0 stWit (-3) 5).qk_injection_timesteps = M0.timesteps ∧
    (∃ r, (init_pnp M0 stWit (-3) 5).qk_injection_timesteps ++ r = M0.timesteps) ∧
    (init_pnp M0 stWit 0 0).conv_injection_timesteps = [] :=
  ⟨(c10_injection_slices M0 stWit (-3) 5).2.2.1 (by decide),
   (c10_injection_slices M0 stWit (-3) 5).2.2.2.2.2.2.2 (by decide),
   (c10_injection_slices M0 stWit (-3) 5).2.1,
   (c10_injection_slices M0 stWit 0 0).2.2.2.2.1 rfl⟩
